import Mathlib

/-!
# FUSE wire format and privilege helpers of libfuse-lite (ntfs-3g)

A shallow embedding of

* `include/fuse-lite/fuse_kernel.h`: the wire structures, the compat sizes,
  `enum fuse_opcode`, the protocol version constants and the directory-entry
  macros `FUSE_NAME_OFFSET`, `FUSE_DIRENT_ALIGN`, `FUSE_DIRENT_SIZE`;
* `libfuse-lite/fuse_i.h`: `FUSE_MAX_MAX_PAGES`;
* `libfuse-lite/priv.h`: `drop_privs` and `restore_privs` (non-Solaris build).

Machine integers are natural numbers with explicit reduction modulo `2 ^ w`.
-/

namespace FuseLite

/-! ## C object layout -/

/-- The scalar types used by the wire structures. -/
inductive Scalar
  | char
  | u16
  | u32
  | i32
  | u64
  deriving DecidableEq, Repr

/-- Width in bytes of a scalar (`sizeof`). -/
def Scalar.width : Scalar → Nat
  | .char => 1
  | .u16 => 2
  | .u32 => 4
  | .i32 => 4
  | .u64 => 8

/-- Alignment of a scalar.  `a64` is the alignment the ABI gives to 64-bit
integers: 8 for a 64-bit caller, 4 for a 32-bit (i386) caller. -/
def Scalar.align (a64 : Nat) : Scalar → Nat
  | .char => 1
  | .u16 => 2
  | .u32 => 4
  | .i32 => 4
  | .u64 => a64

/-- One declared member of a structure: its name and the scalars it is made
of, in order (one scalar for a plain field, `n` for an array of `n`, the
flattened members for an embedded structure, none for a flexible array,
whose element type is kept apart since it still counts for alignment). -/
structure Member where
  name : String
  leaves : List Scalar
  flexElem : Option Scalar
  deriving DecidableEq, Repr

/-- A structure declaration: its members in declaration order. -/
abbrev Struct := List Member

/-- A plain scalar field `t name;`. -/
def fld (t : Scalar) (name : String) : Member := ⟨name, [t], none⟩

/-- An array field `t name[n];`. -/
def arr (t : Scalar) (name : String) (n : Nat) : Member := ⟨name, List.replicate n t, none⟩

/-- The scalars of a whole structure, flattened in declaration order. -/
def Struct.leaves (s : Struct) : List Scalar := s.flatMap Member.leaves

/-- An embedded structure field `struct s name;`. -/
def sub (s : Struct) (name : String) : Member := ⟨name, Struct.leaves s, none⟩

/-- A flexible array member `t name[];`: no bytes of its own, the alignment
of its element type. -/
def flex (t : Scalar) (name : String) : Member := ⟨name, [], some t⟩

/-- Sum of the widths of a list of scalars. -/
def leavesSize (l : List Scalar) : Nat := (l.map Scalar.width).sum

/-- Size in bytes of a member: the sum of the widths of its scalars. -/
def Member.size (m : Member) : Nat := leavesSize m.leaves

/-- Alignment of a member: the largest alignment among its scalars (for a
flexible array, that of its element type). -/
def Member.align (a64 : Nat) (m : Member) : Nat :=
  ((m.leaves ++ m.flexElem.toList).map (Scalar.align a64)).foldl max 1

/-- Round `x` up to a multiple of `a`. -/
def roundUp (x a : Nat) : Nat := (x + a - 1) / a * a

/-- Offsets the C ABI gives the members of a structure laid out from
offset `off`: each member starts at the next multiple of its alignment. -/
def layoutFrom (a64 : Nat) : Nat → Struct → List (String × Nat)
  | _, [] => []
  | off, m :: ms =>
    (m.name, roundUp off (m.align a64)) ::
      layoutFrom a64 (roundUp off (m.align a64) + m.size) ms

/-- Offset just past the last member, padding between members included. -/
def endFrom (a64 : Nat) : Nat → Struct → Nat
  | off, [] => off
  | off, m :: ms => endFrom a64 (roundUp off (m.align a64) + m.size) ms

/-- Alignment of a structure: the largest alignment among its members. -/
def Struct.align (a64 : Nat) (s : Struct) : Nat :=
  (s.map (Member.align a64)).foldl max 1

/-- C `sizeof`: the end offset rounded up to the structure's alignment. -/
def sizeof (a64 : Nat) (s : Struct) : Nat :=
  roundUp (endFrom a64 0 s) (Struct.align a64 s)

/-- C `offsetof(s, name)`; `none` when `s` has no member of that name. -/
def offsetof (a64 : Nat) (s : Struct) (name : String) : Option Nat :=
  (layoutFrom a64 0 s).lookup name

/-- Offsets of the members when laid out back to back with no padding. -/
def packedFrom : Nat → Struct → List (String × Nat)
  | _, [] => []
  | off, m :: ms => (m.name, off) :: packedFrom (off + m.size) ms

/-- Sum of the declared field widths of a structure. -/
def packedSize (s : Struct) : Nat := leavesSize (Struct.leaves s)

/-- Every scalar of the list, laid out back to back from `off`, starts at
an offset divisible by its own width. -/
def leavesAligned : Nat → List Scalar → Bool
  | _, [] => true
  | off, t :: ts => off % t.width == 0 && leavesAligned (off + t.width) ts

/-! ## The wire structures of `fuse_kernel.h` -/

/-- The declaration of `struct fuse_attr`. -/
def fuse_attr : Struct :=
  [fld .u64 "ino",
   fld .u64 "size",
   fld .u64 "blocks",
   fld .u64 "atime",
   fld .u64 "mtime",
   fld .u64 "ctime",
   fld .u32 "atimensec",
   fld .u32 "mtimensec",
   fld .u32 "ctimensec",
   fld .u32 "mode",
   fld .u32 "nlink",
   fld .u32 "uid",
   fld .u32 "gid",
   fld .u32 "rdev",
   fld .u32 "blksize",
   fld .u32 "padding"]

/-- The declaration of `struct fuse_kstatfs`. -/
def fuse_kstatfs : Struct :=
  [fld .u64 "blocks",
   fld .u64 "bfree",
   fld .u64 "bavail",
   fld .u64 "files",
   fld .u64 "ffree",
   fld .u32 "bsize",
   fld .u32 "namelen",
   fld .u32 "frsize",
   fld .u32 "padding",
   arr .u32 "spare" 6]

/-- The declaration of `struct fuse_file_lock`. -/
def fuse_file_lock : Struct :=
  [fld .u64 "start",
   fld .u64 "end",
   fld .u32 "type",
   fld .u32 "pid"]

/-- The declaration of `struct fuse_entry_out`. -/
def fuse_entry_out : Struct :=
  [fld .u64 "nodeid",
   fld .u64 "generation",
   fld .u64 "entry_valid",
   fld .u64 "attr_valid",
   fld .u32 "entry_valid_nsec",
   fld .u32 "attr_valid_nsec",
   sub fuse_attr "attr"]

/-- The declaration of `struct fuse_forget_in`. -/
def fuse_forget_in : Struct :=
  [fld .u64 "nlookup"]

/-- The declaration of `struct fuse_attr_out`. -/
def fuse_attr_out : Struct :=
  [fld .u64 "attr_valid",
   fld .u32 "attr_valid_nsec",
   fld .u32 "dummy",
   sub fuse_attr "attr"]

/-- The declaration of `struct fuse_mknod_in`. -/
def fuse_mknod_in : Struct :=
  [fld .u32 "mode",
   fld .u32 "rdev",
   fld .u32 "umask",
   fld .u32 "padding"]

/-- The declaration of `struct fuse_mkdir_in`. -/
def fuse_mkdir_in : Struct :=
  [fld .u32 "mode",
   fld .u32 "umask"]

/-- The declaration of `struct fuse_rename_in`. -/
def fuse_rename_in : Struct :=
  [fld .u64 "newdir"]

/-- The declaration of `struct fuse_link_in`. -/
def fuse_link_in : Struct :=
  [fld .u64 "oldnodeid"]

/-- The declaration of `struct fuse_setattr_in`. -/
def fuse_setattr_in : Struct :=
  [fld .u32 "valid",
   fld .u32 "padding",
   fld .u64 "fh",
   fld .u64 "size",
   fld .u64 "lock_owner",
   fld .u64 "atime",
   fld .u64 "mtime",
   fld .u64 "ctime",
   fld .u32 "atimensec",
   fld .u32 "mtimensec",
   fld .u32 "ctimensec",
   fld .u32 "mode",
   fld .u32 "unused4",
   fld .u32 "uid",
   fld .u32 "gid",
   fld .u32 "unused5"]

/-- The declaration of `struct fuse_open_in`. -/
def fuse_open_in : Struct :=
  [fld .u32 "flags",
   fld .u32 "unused"]

/-- The declaration of `struct fuse_create_in`. -/
def fuse_create_in : Struct :=
  [fld .u32 "flags",
   fld .u32 "mode",
   fld .u32 "umask",
   fld .u32 "padding"]

/-- The declaration of `struct fuse_open_out`. -/
def fuse_open_out : Struct :=
  [fld .u64 "fh",
   fld .u32 "open_flags",
   fld .u32 "padding"]

/-- The declaration of `struct fuse_release_in`. -/
def fuse_release_in : Struct :=
  [fld .u64 "fh",
   fld .u32 "flags",
   fld .u32 "release_flags",
   fld .u64 "lock_owner"]

/-- The declaration of `struct fuse_flush_in`. -/
def fuse_flush_in : Struct :=
  [fld .u64 "fh",
   fld .u32 "unused",
   fld .u32 "padding",
   fld .u64 "lock_owner"]

/-- The declaration of `struct fuse_read_in`. -/
def fuse_read_in : Struct :=
  [fld .u64 "fh",
   fld .u64 "offset",
   fld .u32 "size",
   fld .u32 "read_flags",
   fld .u64 "lock_owner",
   fld .u32 "flags",
   fld .u32 "padding"]

/-- The declaration of `struct fuse_write_in`. -/
def fuse_write_in : Struct :=
  [fld .u64 "fh",
   fld .u64 "offset",
   fld .u32 "size",
   fld .u32 "write_flags",
   fld .u64 "lock_owner",
   fld .u32 "flags",
   fld .u32 "padding"]

/-- The declaration of `struct fuse_write_out`. -/
def fuse_write_out : Struct :=
  [fld .u32 "size",
   fld .u32 "padding"]

/-- The declaration of `struct fuse_statfs_out`. -/
def fuse_statfs_out : Struct :=
  [sub fuse_kstatfs "st"]

/-- The declaration of `struct fuse_fsync_in`. -/
def fuse_fsync_in : Struct :=
  [fld .u64 "fh",
   fld .u32 "fsync_flags",
   fld .u32 "padding"]

/-- The declaration of `struct fuse_setxattr_in`. -/
def fuse_setxattr_in : Struct :=
  [fld .u32 "size",
   fld .u32 "flags"]

/-- The declaration of `struct fuse_getxattr_in`. -/
def fuse_getxattr_in : Struct :=
  [fld .u32 "size",
   fld .u32 "padding"]

/-- The declaration of `struct fuse_getxattr_out`. -/
def fuse_getxattr_out : Struct :=
  [fld .u32 "size",
   fld .u32 "padding"]

/-- The declaration of `struct fuse_lk_in`. -/
def fuse_lk_in : Struct :=
  [fld .u64 "fh",
   fld .u64 "owner",
   sub fuse_file_lock "lk",
   fld .u32 "lk_flags",
   fld .u32 "padding"]

/-- The declaration of `struct fuse_lk_out`. -/
def fuse_lk_out : Struct :=
  [sub fuse_file_lock "lk"]

/-- The declaration of `struct fuse_access_in`. -/
def fuse_access_in : Struct :=
  [fld .u32 "mask",
   fld .u32 "padding"]

/-- The declaration of `struct fuse_init_in`. -/
def fuse_init_in : Struct :=
  [fld .u32 "major",
   fld .u32 "minor",
   fld .u32 "max_readahead",
   fld .u32 "flags"]

/-- The declaration of `struct fuse_init_out`. -/
def fuse_init_out : Struct :=
  [fld .u32 "major",
   fld .u32 "minor",
   fld .u32 "max_readahead",
   fld .u32 "flags",
   fld .u16 "max_background",
   fld .u16 "congestion_threshold",
   fld .u32 "max_write",
   fld .u32 "time_gran",
   fld .u16 "max_pages",
   fld .u16 "padding",
   arr .u32 "unused" 8]

/-- The declaration of `struct fuse_interrupt_in`. -/
def fuse_interrupt_in : Struct :=
  [fld .u64 "unique"]

/-- The declaration of `struct fuse_bmap_in`. -/
def fuse_bmap_in : Struct :=
  [fld .u64 "block",
   fld .u32 "blocksize",
   fld .u32 "padding"]

/-- The declaration of `struct fuse_bmap_out`. -/
def fuse_bmap_out : Struct :=
  [fld .u64 "block"]

/-- The declaration of `struct fuse_ioctl_in`. -/
def fuse_ioctl_in : Struct :=
  [fld .u64 "fh",
   fld .u32 "flags",
   fld .u32 "cmd",
   fld .u64 "arg",
   fld .u32 "in_size",
   fld .u32 "out_size"]

/-- The declaration of `struct fuse_ioctl_iovec`. -/
def fuse_ioctl_iovec : Struct :=
  [fld .u64 "base",
   fld .u64 "len"]

/-- The declaration of `struct fuse_ioctl_out`. -/
def fuse_ioctl_out : Struct :=
  [fld .i32 "result",
   fld .u32 "flags",
   fld .u32 "in_iovs",
   fld .u32 "out_iovs"]

/-- The declaration of `struct fuse_in_header`. -/
def fuse_in_header : Struct :=
  [fld .u32 "len",
   fld .u32 "opcode",
   fld .u64 "unique",
   fld .u64 "nodeid",
   fld .u32 "uid",
   fld .u32 "gid",
   fld .u32 "pid",
   fld .u32 "padding"]

/-- The declaration of `struct fuse_out_header`. -/
def fuse_out_header : Struct :=
  [fld .u32 "len",
   fld .i32 "error",
   fld .u64 "unique"]

/-- The declaration of `struct fuse_dirent`. -/
def fuse_dirent : Struct :=
  [fld .u64 "ino",
   fld .u64 "off",
   fld .u32 "namelen",
   fld .u32 "type",
   flex .char "name"]

/-- Every wire structure declared in `fuse_kernel.h`, with its name. -/
def wireStructs : List (String × Struct) :=
  [("fuse_attr", fuse_attr),
   ("fuse_kstatfs", fuse_kstatfs),
   ("fuse_file_lock", fuse_file_lock),
   ("fuse_entry_out", fuse_entry_out),
   ("fuse_forget_in", fuse_forget_in),
   ("fuse_attr_out", fuse_attr_out),
   ("fuse_mknod_in", fuse_mknod_in),
   ("fuse_mkdir_in", fuse_mkdir_in),
   ("fuse_rename_in", fuse_rename_in),
   ("fuse_link_in", fuse_link_in),
   ("fuse_setattr_in", fuse_setattr_in),
   ("fuse_open_in", fuse_open_in),
   ("fuse_create_in", fuse_create_in),
   ("fuse_open_out", fuse_open_out),
   ("fuse_release_in", fuse_release_in),
   ("fuse_flush_in", fuse_flush_in),
   ("fuse_read_in", fuse_read_in),
   ("fuse_write_in", fuse_write_in),
   ("fuse_write_out", fuse_write_out),
   ("fuse_statfs_out", fuse_statfs_out),
   ("fuse_fsync_in", fuse_fsync_in),
   ("fuse_setxattr_in", fuse_setxattr_in),
   ("fuse_getxattr_in", fuse_getxattr_in),
   ("fuse_getxattr_out", fuse_getxattr_out),
   ("fuse_lk_in", fuse_lk_in),
   ("fuse_lk_out", fuse_lk_out),
   ("fuse_access_in", fuse_access_in),
   ("fuse_init_in", fuse_init_in),
   ("fuse_init_out", fuse_init_out),
   ("fuse_interrupt_in", fuse_interrupt_in),
   ("fuse_bmap_in", fuse_bmap_in),
   ("fuse_bmap_out", fuse_bmap_out),
   ("fuse_ioctl_in", fuse_ioctl_in),
   ("fuse_ioctl_iovec", fuse_ioctl_iovec),
   ("fuse_ioctl_out", fuse_ioctl_out),
   ("fuse_in_header", fuse_in_header),
   ("fuse_out_header", fuse_out_header),
   ("fuse_dirent", fuse_dirent)]

/-! ## Constants of `fuse_kernel.h` and `fuse_i.h` -/

/-- Version number of this interface. -/
def FUSE_KERNEL_VERSION : Nat := 7

/-- Minor version number of this interface. -/
def FUSE_KERNEL_MINOR_VERSION : Nat := 28

/-- Hard maximum of the page count of one request (`fuse_i.h`). -/
def FUSE_MAX_MAX_PAGES : Nat := 256

/-- Legacy size of `struct fuse_entry_out`. -/
def FUSE_COMPAT_ENTRY_OUT_SIZE : Nat := 120

/-- Legacy size of `struct fuse_attr_out`. -/
def FUSE_COMPAT_ATTR_OUT_SIZE : Nat := 96

/-- Legacy size of `struct fuse_mknod_in`. -/
def FUSE_COMPAT_MKNOD_IN_SIZE : Nat := 8

/-- Legacy size of `struct fuse_write_in`. -/
def FUSE_COMPAT_WRITE_IN_SIZE : Nat := 24

/-- Legacy size of `struct fuse_statfs_out`. -/
def FUSE_COMPAT_STATFS_SIZE : Nat := 48

/-- Legacy size of `struct fuse_init_out` before protocol 7.5. -/
def FUSE_COMPAT_INIT_OUT_SIZE : Nat := 8

/-- Legacy size of `struct fuse_init_out` up to protocol 7.22. -/
def FUSE_COMPAT_22_INIT_OUT_SIZE : Nat := 24

/-- Every compat size of `fuse_kernel.h`. -/
def compatSizes : List Nat :=
  [FUSE_COMPAT_ENTRY_OUT_SIZE, FUSE_COMPAT_ATTR_OUT_SIZE, FUSE_COMPAT_MKNOD_IN_SIZE,
   FUSE_COMPAT_WRITE_IN_SIZE, FUSE_COMPAT_STATFS_SIZE, FUSE_COMPAT_INIT_OUT_SIZE,
   FUSE_COMPAT_22_INIT_OUT_SIZE]

/-- Offset of member `inner` of the embedded structure `t`, itself member
`outer` of `s`: `offsetof(s, outer.inner)`. -/
def offsetof2 (a64 : Nat) (s : Struct) (outer : String) (t : Struct) (inner : String) :
    Option Nat :=
  match offsetof a64 s outer, offsetof a64 t inner with
  | some a, some b => some (a + b)
  | _, _ => none

/-! ## `size_t` arithmetic and the directory-entry macros -/

/-- Number of values of a 64-bit `size_t`. -/
def SIZE_MOD : Nat := 2 ^ 64

/-- Unsigned addition of `size_t`. -/
def sz_add (a b : Nat) : Nat := (a + b) % SIZE_MOD

/-- Unsigned subtraction of `size_t`. -/
def sz_sub (a b : Nat) : Nat := (a % SIZE_MOD + (SIZE_MOD - b % SIZE_MOD)) % SIZE_MOD

/-- Bitwise complement of a `size_t`. -/
def sz_not (a : Nat) : Nat := SIZE_MOD - 1 - a % SIZE_MOD

/-- The fixed part and the name of a directory entry, as `struct fuse_dirent`
holds them; `name` is the flexible array of name bytes. -/
structure Dirent where
  ino : Nat
  off : Nat
  namelen : Nat
  type : Nat
  name : List Nat
  deriving DecidableEq, Repr

/-- `FUSE_NAME_OFFSET`: `offsetof(struct fuse_dirent, name)` under the ABI
with 64-bit alignment `a64`. -/
def FUSE_NAME_OFFSET_abi (a64 : Nat) : Nat := (offsetof a64 fuse_dirent "name").getD 0

/-- `FUSE_NAME_OFFSET` for a 64-bit caller. -/
def FUSE_NAME_OFFSET : Nat := FUSE_NAME_OFFSET_abi 8

/-- `FUSE_DIRENT_ALIGN(x)`:
`(((x) + sizeof(uint64_t) - 1) & ~(sizeof(uint64_t) - 1))` in `size_t`. -/
def FUSE_DIRENT_ALIGN (x : Nat) : Nat :=
  sz_sub (sz_add x Scalar.u64.width) 1 &&& sz_not (sz_sub Scalar.u64.width 1)

/-- `FUSE_DIRENT_SIZE(d)`: `FUSE_DIRENT_ALIGN(FUSE_NAME_OFFSET + (d)->namelen)`. -/
def FUSE_DIRENT_SIZE (d : Dirent) : Nat :=
  FUSE_DIRENT_ALIGN (sz_add FUSE_NAME_OFFSET d.namelen)

/-! ## `enum fuse_opcode` -/

/-- The enumerators of `enum fuse_opcode`. -/
inductive fuse_opcode
  | FUSE_LOOKUP
  | FUSE_FORGET
  | FUSE_GETATTR
  | FUSE_SETATTR
  | FUSE_READLINK
  | FUSE_SYMLINK
  | FUSE_MKNOD
  | FUSE_MKDIR
  | FUSE_UNLINK
  | FUSE_RMDIR
  | FUSE_RENAME
  | FUSE_LINK
  | FUSE_OPEN
  | FUSE_READ
  | FUSE_WRITE
  | FUSE_STATFS
  | FUSE_RELEASE
  | FUSE_FSYNC
  | FUSE_SETXATTR
  | FUSE_GETXATTR
  | FUSE_LISTXATTR
  | FUSE_REMOVEXATTR
  | FUSE_FLUSH
  | FUSE_INIT
  | FUSE_OPENDIR
  | FUSE_READDIR
  | FUSE_RELEASEDIR
  | FUSE_FSYNCDIR
  | FUSE_GETLK
  | FUSE_SETLK
  | FUSE_SETLKW
  | FUSE_ACCESS
  | FUSE_CREATE
  | FUSE_INTERRUPT
  | FUSE_BMAP
  | FUSE_DESTROY
  | FUSE_IOCTL
  | FUSE_POLL
  | FUSE_NOTIFY_REPLY
  | FUSE_BATCH_FORGET
  | FUSE_FALLOCATE
  | FUSE_READDIRPLUS
  | FUSE_RENAME2
  | FUSE_LSEEK
  | FUSE_COPY_FILE_RANGE
  | CUSE_INIT
  deriving DecidableEq, Repr

/-- The numeric value the enumeration gives each enumerator. -/
def fuse_opcode.toNat : fuse_opcode → Nat
  | .FUSE_LOOKUP => 1
  | .FUSE_FORGET => 2
  | .FUSE_GETATTR => 3
  | .FUSE_SETATTR => 4
  | .FUSE_READLINK => 5
  | .FUSE_SYMLINK => 6
  | .FUSE_MKNOD => 8
  | .FUSE_MKDIR => 9
  | .FUSE_UNLINK => 10
  | .FUSE_RMDIR => 11
  | .FUSE_RENAME => 12
  | .FUSE_LINK => 13
  | .FUSE_OPEN => 14
  | .FUSE_READ => 15
  | .FUSE_WRITE => 16
  | .FUSE_STATFS => 17
  | .FUSE_RELEASE => 18
  | .FUSE_FSYNC => 20
  | .FUSE_SETXATTR => 21
  | .FUSE_GETXATTR => 22
  | .FUSE_LISTXATTR => 23
  | .FUSE_REMOVEXATTR => 24
  | .FUSE_FLUSH => 25
  | .FUSE_INIT => 26
  | .FUSE_OPENDIR => 27
  | .FUSE_READDIR => 28
  | .FUSE_RELEASEDIR => 29
  | .FUSE_FSYNCDIR => 30
  | .FUSE_GETLK => 31
  | .FUSE_SETLK => 32
  | .FUSE_SETLKW => 33
  | .FUSE_ACCESS => 34
  | .FUSE_CREATE => 35
  | .FUSE_INTERRUPT => 36
  | .FUSE_BMAP => 37
  | .FUSE_DESTROY => 38
  | .FUSE_IOCTL => 39
  | .FUSE_POLL => 40
  | .FUSE_NOTIFY_REPLY => 41
  | .FUSE_BATCH_FORGET => 42
  | .FUSE_FALLOCATE => 43
  | .FUSE_READDIRPLUS => 44
  | .FUSE_RENAME2 => 45
  | .FUSE_LSEEK => 46
  | .FUSE_COPY_FILE_RANGE => 47
  | .CUSE_INIT => 4096

/-- The enumerators in declaration order. -/
def fuse_opcode.all : List fuse_opcode :=
  [.FUSE_LOOKUP,
   .FUSE_FORGET,
   .FUSE_GETATTR,
   .FUSE_SETATTR,
   .FUSE_READLINK,
   .FUSE_SYMLINK,
   .FUSE_MKNOD,
   .FUSE_MKDIR,
   .FUSE_UNLINK,
   .FUSE_RMDIR,
   .FUSE_RENAME,
   .FUSE_LINK,
   .FUSE_OPEN,
   .FUSE_READ,
   .FUSE_WRITE,
   .FUSE_STATFS,
   .FUSE_RELEASE,
   .FUSE_FSYNC,
   .FUSE_SETXATTR,
   .FUSE_GETXATTR,
   .FUSE_LISTXATTR,
   .FUSE_REMOVEXATTR,
   .FUSE_FLUSH,
   .FUSE_INIT,
   .FUSE_OPENDIR,
   .FUSE_READDIR,
   .FUSE_RELEASEDIR,
   .FUSE_FSYNCDIR,
   .FUSE_GETLK,
   .FUSE_SETLK,
   .FUSE_SETLKW,
   .FUSE_ACCESS,
   .FUSE_CREATE,
   .FUSE_INTERRUPT,
   .FUSE_BMAP,
   .FUSE_DESTROY,
   .FUSE_IOCTL,
   .FUSE_POLL,
   .FUSE_NOTIFY_REPLY,
   .FUSE_BATCH_FORGET,
   .FUSE_FALLOCATE,
   .FUSE_READDIRPLUS,
   .FUSE_RENAME2,
   .FUSE_LSEEK,
   .FUSE_COPY_FILE_RANGE,
   .CUSE_INIT]

/-- Modelled from the spec: decoding of a raw opcode number at the
dispatcher boundary (`fuse_lowlevel.c`, which is not among the embedded
sources): the enumerator that `enum fuse_opcode` declares with that value,
`none` (unknown opcode) when the number is outside the enumeration. -/
def fuse_opcode.decode (n : Nat) : Option fuse_opcode :=
  fuse_opcode.all.find? (fun o => o.toNat == n)

/-- Modelled from the spec: the no-reply class of the dispatcher
(`fuse_lowlevel.c`, which is not among the embedded sources; the header
marks only `FUSE_FORGET` with `no reply`).  The spec: the "forget" and
"batch forget" opcodes are no-reply. -/
def fuse_opcode.noReply : fuse_opcode → Bool
  | .FUSE_FORGET => true
  | .FUSE_BATCH_FORGET => true
  | _ => false

/-! ## Directory-entry records as bytes -/

/-- Byte order of the host. -/
inductive ByteOrder
  | little
  | big
  deriving DecidableEq, Repr

/-- The `w` bytes of `v`, least significant first. -/
def storeLE : Nat → Nat → List Nat
  | 0, _ => []
  | w + 1, v => v % 256 :: storeLE w (v / 256)

/-- The integer held by a list of bytes, least significant first. -/
def loadLE : List Nat → Nat
  | [] => 0
  | b :: bs => b + 256 * loadLE bs

/-- Object representation of a `w`-byte unsigned integer. -/
def store (bo : ByteOrder) (w v : Nat) : List Nat :=
  match bo with
  | .little => storeLE w v
  | .big => (storeLE w v).reverse

/-- Value of the object representation of an unsigned integer. -/
def load (bo : ByteOrder) (bs : List Nat) : Nat :=
  match bo with
  | .little => loadLE bs
  | .big => loadLE bs.reverse

/-- The `w` bytes of a buffer that start at offset `off`. -/
def readAt (buf : List Nat) (off w : Nat) : List Nat := (buf.drop off).take w

/-- Offset of a member of `struct fuse_dirent` for a 64-bit caller. -/
def direntOff (name : String) : Nat := (offsetof 8 fuse_dirent name).getD 0

/-- Modelled from the spec: the writer of one directory-entry record
(`fuse_add_dirent` of `fuse_lowlevel.c`, which is not among the embedded
sources).  The record is the fixed part of `struct fuse_dirent` in
declaration order with `namelen` the length of the name, then the name
bytes, then zero bytes up to `FUSE_DIRENT_SIZE`. -/
def dirent_write (bo : ByteOrder) (ino off type : Nat) (name : List Nat) : List Nat :=
  let d : Dirent := { ino := ino, off := off, namelen := name.length, type := type, name := name }
  store bo Scalar.u64.width d.ino ++ store bo Scalar.u64.width d.off ++
    store bo Scalar.u32.width d.namelen ++ store bo Scalar.u32.width d.type ++
    d.name ++ List.replicate (FUSE_DIRENT_SIZE d - (FUSE_NAME_OFFSET + d.namelen)) 0

/-- Modelled from the spec: the reader of one directory-entry record (the
peer's side, which is not among the embedded sources).  Each field of the
fixed part is read at its `offsetof` in `struct fuse_dirent`, the name at
`FUSE_NAME_OFFSET`; `none` when the buffer is shorter than the fixed part. -/
def dirent_read (bo : ByteOrder) (buf : List Nat) : Option Dirent :=
  if buf.length < FUSE_NAME_OFFSET then none
  else
    let namelen := load bo (readAt buf (direntOff "namelen") Scalar.u32.width)
    some { ino := load bo (readAt buf (direntOff "ino") Scalar.u64.width)
           off := load bo (readAt buf (direntOff "off") Scalar.u64.width)
           namelen := namelen
           type := load bo (readAt buf (direntOff "type") Scalar.u32.width)
           name := readAt buf FUSE_NAME_OFFSET namelen }

/-! ## Version negotiation -/

/-- The values of an INIT request (`struct fuse_init_in`). -/
structure InitIn where
  major : Nat
  minor : Nat
  max_readahead : Nat
  flags : Nat
  deriving DecidableEq, Repr

/-- The values of an INIT reply the spec speaks of (`struct fuse_init_out`). -/
structure InitOut where
  major : Nat
  minor : Nat
  flags : Nat
  max_background : Nat
  congestion_threshold : Nat
  max_write : Nat
  time_gran : Nat
  max_pages : Nat
  deriving DecidableEq, Repr

/-- States of a session. -/
inductive SessionState
  | Created
  | Negotiating
  | Active
  | Exiting
  | Closed
  deriving DecidableEq, Repr

/-- What the engine advertises and chooses, and its hard maxima.  Only the
hard maximum of the page count, `FUSE_MAX_MAX_PAGES`, is a constant of the
embedded sources; the others are fields here. -/
structure Engine where
  flags : Nat
  max_background : Nat
  congestion_threshold : Nat
  max_write : Nat
  time_gran : Nat
  max_pages : Nat
  hard_max_background : Nat
  hard_congestion_threshold : Nat
  hard_max_write : Nat
  hard_time_gran : Nat
  deriving DecidableEq, Repr

/-- Result of processing one INIT request: the reply, the session state
afterwards and the negotiated minor version, when one is agreed. -/
structure InitResult where
  reply : InitOut
  state : SessionState
  proto_minor : Option Nat
  deriving DecidableEq, Repr

/-- Modelled from the spec: the handling of an INIT request (`do_init` of
`fuse_lowlevel.c`, which is not among the embedded sources).  A peer major
above the supported one is answered with the supported major only and the
session stays in `Negotiating`.  With equal majors the reply carries the
version the engine supports (the header: both sides send the version they
support), the negotiated minor is the smaller of the two, the flags are
the intersection and each limit is clamped to its hard maximum; the session
becomes `Active`.  The spec does not say what a smaller peer major gets:
`older` stands for it. -/
def do_init (e : Engine) (older : InitIn → InitResult) (arg : InitIn) : InitResult :=
  if arg.major > FUSE_KERNEL_VERSION then
    { reply := { major := FUSE_KERNEL_VERSION, minor := 0, flags := 0, max_background := 0,
                 congestion_threshold := 0, max_write := 0, time_gran := 0, max_pages := 0 }
      state := .Negotiating
      proto_minor := none }
  else if arg.major = FUSE_KERNEL_VERSION then
    { reply := { major := FUSE_KERNEL_VERSION
                 minor := FUSE_KERNEL_MINOR_VERSION
                 flags := arg.flags &&& e.flags
                 max_background := min e.max_background e.hard_max_background
                 congestion_threshold := min e.congestion_threshold e.hard_congestion_threshold
                 max_write := min e.max_write e.hard_max_write
                 time_gran := min e.time_gran e.hard_time_gran
                 max_pages := min e.max_pages FUSE_MAX_MAX_PAGES }
      state := .Active
      proto_minor := some (min arg.minor FUSE_KERNEL_MINOR_VERSION) }
  else older arg

/-- A sample engine: it asks for 1024 pages, above the hard maximum. -/
def sampleEngine : Engine :=
  { flags := 0x400021
    max_background := 12
    congestion_threshold := 9
    max_write := 131072
    time_gran := 1
    max_pages := 1024
    hard_max_background := 65535
    hard_congestion_threshold := 65535
    hard_max_write := 1048576
    hard_time_gran := 1000000000 }

/-- A sample treatment of a smaller peer major: the session ends. -/
def sampleOlder : InitIn → InitResult := fun _ =>
  { reply := { major := 0, minor := 0, flags := 0, max_background := 0,
               congestion_threshold := 0, max_write := 0, time_gran := 0, max_pages := 0 }
    state := .Exiting
    proto_minor := none }

/-! ## Process credentials and `priv.h` -/

/-- The real, effective and saved user and group ids of a process. -/
structure Creds where
  ruid : Nat
  euid : Nat
  suid : Nat
  rgid : Nat
  egid : Nat
  sgid : Nat
  deriving DecidableEq, Repr

/-- A `setresuid` or `setresgid` call with its arguments and return value. -/
inductive Call
  | setresuid (r e s : Nat) (ret : Int)
  | setresgid (r e s : Nat) (ret : Int)
  deriving DecidableEq, Repr

/-- Return value of a recorded call. -/
def Call.ret : Call → Int
  | .setresuid _ _ _ ret => ret
  | .setresgid _ _ _ ret => ret

/-- A process: its credentials and the id-setting calls it has made. -/
structure Proc where
  creds : Creds
  log : List Call
  deriving DecidableEq, Repr

/-- Which family of ids a call sets. -/
inductive IdKind
  | uid
  | gid
  deriving DecidableEq, Repr

/-- The kernel's decision on an id-setting call: from the process (its
credentials and history), the family and the three arguments, whether the
call is carried out.  Kept arbitrary: a call may fail for any reason. -/
abbrev Kernel := Proc → IdKind → Nat → Nat → Nat → Bool

/-- The argument `-1` as `uid_t` or `gid_t` (32 bits): leave the id as it is. -/
def ID_UNCHANGED : Nat := 2 ^ 32 - 1

/-- New value of one id under a `setres*id` argument. -/
def setId (arg old : Nat) : Nat := if arg = ID_UNCHANGED then old else arg

/-- `getuid()`. -/
def getuid (p : Proc) : Nat := p.creds.ruid

/-- `geteuid()`. -/
def geteuid (p : Proc) : Nat := p.creds.euid

/-- `getgid()`. -/
def getgid (p : Proc) : Nat := p.creds.rgid

/-- `getegid()`. -/
def getegid (p : Proc) : Nat := p.creds.egid

/-- `getresuid(&ruid, &euid, &suid)`: return value and the three ids. -/
def getresuid (p : Proc) : Int × Nat × Nat × Nat :=
  (0, p.creds.ruid, p.creds.euid, p.creds.suid)

/-- `getresgid(&rgid, &egid, &sgid)`: return value and the three ids. -/
def getresgid (p : Proc) : Int × Nat × Nat × Nat :=
  (0, p.creds.rgid, p.creds.egid, p.creds.sgid)

/-- `setresuid(r, e, s)`: when the kernel carries it out, each id whose
argument is not `-1` is set and 0 is returned; otherwise the ids stay and
-1 is returned.  The call is recorded either way. -/
def setresuid (k : Kernel) (p : Proc) (r e s : Nat) : Int × Proc :=
  if k p .uid r e s then
    (0, { creds := { p.creds with ruid := setId r p.creds.ruid
                                  euid := setId e p.creds.euid
                                  suid := setId s p.creds.suid }
          log := p.log ++ [.setresuid r e s 0] })
  else (-1, { p with log := p.log ++ [.setresuid r e s (-1)] })

/-- `setresgid(r, e, s)`, as `setresuid` for the group ids. -/
def setresgid (k : Kernel) (p : Proc) (r e s : Nat) : Int × Proc :=
  if k p .gid r e s then
    (0, { creds := { p.creds with rgid := setId r p.creds.rgid
                                  egid := setId e p.creds.egid
                                  sgid := setId s p.creds.sgid }
          log := p.log ++ [.setresgid r e s 0] })
  else (-1, { p with log := p.log ++ [.setresgid r e s (-1)] })

/-- The second half of `drop_privs`: `if (!geteuid()) { ... } return 0;`. -/
def drop_privs_user (k : Kernel) (p : Proc) : Int × Proc :=
  if geteuid p = 0 then
    let new_uid := getuid p
    let c := setresuid k p ID_UNCHANGED new_uid (geteuid p)
    if c.1 < 0 then (-1, c.2)
    else if geteuid c.2 ≠ new_uid then (-1, c.2)
    else (0, c.2)
  else (0, p)

/-- `drop_privs` of `priv.h` (non-Solaris build): return value and the
process afterwards.  The `perror` messages are left out. -/
def drop_privs (k : Kernel) (p : Proc) : Int × Proc :=
  if getegid p = 0 then
    let new_gid := getgid p
    let c := setresgid k p ID_UNCHANGED new_gid (getegid p)
    if c.1 < 0 then (-1, c.2)
    else if getegid c.2 ≠ new_gid then (-1, c.2)
    else drop_privs_user k c.2
  else drop_privs_user k p

/-- The second half of `restore_privs`: `if (getegid()) { ... } return 0;`. -/
def restore_privs_group (k : Kernel) (p : Proc) : Int × Proc :=
  if getegid p ≠ 0 then
    let g := getresgid p
    if g.1 < 0 then (-1, p)
    else
      let sgid := g.2.2.2
      let c := setresgid k p ID_UNCHANGED sgid ID_UNCHANGED
      if c.1 < 0 then (-1, c.2)
      else if getegid c.2 ≠ sgid then (-1, c.2)
      else (0, c.2)
  else (0, p)

/-- `restore_privs` of `priv.h` (non-Solaris build): return value and the
process afterwards.  The `perror` messages are left out. -/
def restore_privs (k : Kernel) (p : Proc) : Int × Proc :=
  if geteuid p ≠ 0 then
    let u := getresuid p
    if u.1 < 0 then (-1, p)
    else
      let suid := u.2.2.2
      let c := setresuid k p ID_UNCHANGED suid ID_UNCHANGED
      if c.1 < 0 then (-1, c.2)
      else if geteuid c.2 ≠ suid then (-1, c.2)
      else restore_privs_group k c.2
  else restore_privs_group k p

/-- The permission rule of `setresuid(2)` and `setresgid(2)`: a process
whose effective uid is 0 may set any ids, another one may set each id only
to one of the current real, effective or saved ids of that family. -/
def linuxKernel : Kernel := fun p kind r e s =>
  let cur := match kind with
    | .uid => [p.creds.ruid, p.creds.euid, p.creds.suid]
    | .gid => [p.creds.rgid, p.creds.egid, p.creds.sgid]
  p.creds.euid == 0 ||
    [r, e, s].all (fun a => a == ID_UNCHANGED || cur.contains a)

/-! ## Directory-entry alignment -/

/-- Masking a 64-bit value with `~7` clears its three low bits. -/
theorem land_not_seven (y : Nat) (h : y < 2 ^ 64) : y &&& (2 ^ 64 - 8) = y / 8 * 8 := by
  apply Nat.eq_of_testBit_eq
  intro i
  rw [Nat.testBit_and]
  have h8 : (2:Nat) ^ 64 - 8 = 2 ^ 64 - (7 + 1) := rfl
  have h7 : (7:Nat) = 2 ^ 3 - 1 := rfl
  have hm : y / 8 * 8 = 2 ^ 3 * (y >>> 3) := by
    rw [Nat.shiftRight_eq_div_pow]; norm_num [Nat.mul_comm]
  rw [h8, Nat.testBit_two_pow_sub_succ (by norm_num), h7, Nat.testBit_two_pow_sub_one, hm,
    Nat.testBit_mul_pow_two, Nat.testBit_shiftRight]
  by_cases h3 : i < 3
  · simp [h3, Nat.not_le.mpr h3]
  · have h3' : 3 ≤ i := Nat.le_of_not_lt h3
    have e : 3 + (i - 3) = i := by omega
    simp only [h3, h3', e, decide_True, decide_False, Bool.not_false, Bool.and_true,
      Bool.true_and, ge_iff_le]
    by_cases h64 : i < 64
    · simp [h64]
    · have : y < 2 ^ i := lt_of_lt_of_le h (Nat.pow_le_pow_right (by norm_num) (by omega))
      simp [h64, Nat.testBit_lt_two_pow this]

/-- The offset of the name in `struct fuse_dirent` is 24. -/
theorem FUSE_NAME_OFFSET_eq : FUSE_NAME_OFFSET = 24 := by decide

/-- The macro in closed form: add 7 modulo `2 ^ 64`, then clear the low bits. -/
theorem FUSE_DIRENT_ALIGN_eq (x : Nat) :
    FUSE_DIRENT_ALIGN x = (x + 7) % 2 ^ 64 / 8 * 8 := by
  have hw : Scalar.u64.width = 8 := rfl
  have h1 : sz_sub (sz_add x Scalar.u64.width) 1 = (x + 7) % 2 ^ 64 := by
    simp only [sz_sub, sz_add, SIZE_MOD, hw]
    norm_num
    omega
  have h2 : sz_not (sz_sub Scalar.u64.width 1) = 2 ^ 64 - 8 := by
    simp only [sz_sub, sz_not, SIZE_MOD, hw]
    norm_num
  unfold FUSE_DIRENT_ALIGN
  rw [h1, h2]
  exact land_not_seven _ (Nat.mod_lt _ (by norm_num))

/-- The aligned value is always a multiple of 8. -/
theorem FUSE_DIRENT_ALIGN_mod (x : Nat) : FUSE_DIRENT_ALIGN x % 8 = 0 := by
  rw [FUSE_DIRENT_ALIGN_eq]
  exact Nat.mul_mod_left _ _

/-- The size of a record whose name length fits 32 bits, in closed form. -/
theorem FUSE_DIRENT_SIZE_eq (d : Dirent) (h : d.namelen < 2 ^ 32) :
    FUSE_DIRENT_SIZE d = (24 + d.namelen + 7) / 8 * 8 := by
  unfold FUSE_DIRENT_SIZE
  rw [FUSE_DIRENT_ALIGN_eq, FUSE_NAME_OFFSET_eq]
  have h0 : sz_add 24 d.namelen = 24 + d.namelen := by
    simp only [sz_add, SIZE_MOD]
    norm_num at h ⊢
    omega
  rw [h0]
  have h1 : (24 + d.namelen + 7) % 2 ^ 64 = 24 + d.namelen + 7 := by
    norm_num at h ⊢
    omega
  rw [h1]

/-- C1: for every directory entry whose `namelen` is a 32-bit value,
`FUSE_DIRENT_SIZE` with `FUSE_NAME_OFFSET = 24` and 64-bit `size_t` is the
mathematical round-up of `24 + namelen` to a multiple of 8: it is divisible
by 8, at least `24 + namelen`, below `24 + namelen + 8`, and neither the
additions, the subtraction nor the mask wrap modulo `2 ^ 64`. -/
theorem FUSE_DIRENT_SIZE_round_up (d : Dirent) (h : d.namelen < 2 ^ 32) :
    FUSE_NAME_OFFSET = 24 ∧
    FUSE_DIRENT_SIZE d = roundUp (24 + d.namelen) 8 ∧
    FUSE_DIRENT_SIZE d % 8 = 0 ∧
    24 + d.namelen ≤ FUSE_DIRENT_SIZE d ∧
    FUSE_DIRENT_SIZE d < 24 + d.namelen + 8 ∧
    sz_add FUSE_NAME_OFFSET d.namelen = 24 + d.namelen ∧
    sz_add (24 + d.namelen) Scalar.u64.width = 24 + d.namelen + 8 ∧
    sz_sub (24 + d.namelen + 8) 1 = 24 + d.namelen + 8 - 1 ∧
    sz_not (sz_sub Scalar.u64.width 1) = 2 ^ 64 - 8 ∧
    FUSE_DIRENT_SIZE d < SIZE_MOD := by
  have hs := FUSE_DIRENT_SIZE_eq d h
  have hw : Scalar.u64.width = 8 := rfl
  norm_num at h
  refine ⟨FUSE_NAME_OFFSET_eq, ?_, ?_, ?_, ?_, ?_, ?_, ?_, ?_, ?_⟩
  · rw [hs]; rfl
  · rw [hs]; exact Nat.mul_mod_left _ _
  · rw [hs]; omega
  · rw [hs]; omega
  · rw [FUSE_NAME_OFFSET_eq]; simp only [sz_add, SIZE_MOD]; norm_num; omega
  · simp only [sz_add, SIZE_MOD, hw]; norm_num; omega
  · simp only [sz_sub, SIZE_MOD]; norm_num; omega
  · simp only [sz_sub, sz_not, SIZE_MOD, hw]; norm_num
  · rw [hs]; simp only [SIZE_MOD]; norm_num; omega

/-- Witness of C1: a record with a five-byte name. -/
theorem FUSE_DIRENT_SIZE_round_up_witness :
    (5 : Nat) < 2 ^ 32 ∧ FUSE_DIRENT_SIZE ⟨1, 1, 5, 8, [104, 101, 108, 108, 111]⟩ = 32 := by
  have h := FUSE_DIRENT_SIZE_round_up ⟨1, 1, 5, 8, [104, 101, 108, 108, 111]⟩ (by norm_num)
  exact ⟨by norm_num, h.2.1.trans (by decide)⟩

/-- C2: for every finite sequence of directory entries laid out back to
back from offset 0, each taking `FUSE_DIRENT_SIZE` bytes, every record
starts and ends at an offset divisible by 8: every prefix sum of the
`FUSE_DIRENT_SIZE` values is a multiple of 8. -/
theorem dirent_prefix_sums_aligned (ds : List Dirent) (k : Nat) :
    ((ds.take k).map FUSE_DIRENT_SIZE).sum % 8 = 0 := by
  induction ds generalizing k with
  | nil => simp
  | cons d ds ih =>
    cases k with
    | zero => simp
    | succ k =>
      have hd : FUSE_DIRENT_SIZE d % 8 = 0 := FUSE_DIRENT_ALIGN_mod _
      have hk := ih k
      simp only [List.take_succ_cons, List.map_cons, List.sum_cons]
      omega

/-! ## Round trip of a directory-entry record -/

/-- A stored integer takes as many bytes as its width. -/
theorem storeLE_length (w v : Nat) : (storeLE w v).length = w := by
  induction w generalizing v with
  | zero => rfl
  | succ w ih => simp [storeLE, ih]

/-- Loading a stored integer that fits its width gives it back. -/
theorem loadLE_storeLE (w v : Nat) (h : v < 256 ^ w) : loadLE (storeLE w v) = v := by
  induction w generalizing v with
  | zero =>
    have : v = 0 := by simpa using h
    simp [storeLE, loadLE, this]
  | succ w ih =>
    have hv : v / 256 < 256 ^ w := by
      rw [Nat.div_lt_iff_lt_mul (by norm_num)]
      rw [pow_succ] at h
      exact h
    simp only [storeLE, loadLE, ih _ hv]
    omega

/-- The object representation has the width of the integer, in either byte order. -/
theorem store_length (bo : ByteOrder) (w v : Nat) : (store bo w v).length = w := by
  cases bo <;> simp [store, storeLE_length]

/-- Loading a stored integer gives it back, in either byte order. -/
theorem load_store (bo : ByteOrder) (w v : Nat) (h : v < 256 ^ w) :
    load bo (store bo w v) = v := by
  cases bo <;> simp [store, load, loadLE_storeLE w v h]

/-- Reading a segment of a buffer at its own offset and width gives the segment. -/
theorem readAt_segment (pre x post : List Nat) (off w : Nat) (ho : off = pre.length)
    (hw : w = x.length) : readAt (pre ++ (x ++ post)) off w = x := by
  subst ho
  subst hw
  simp [readAt]

/-- Aligning an aligned value changes nothing. -/
theorem FUSE_DIRENT_ALIGN_idem (x : Nat) :
    FUSE_DIRENT_ALIGN (FUSE_DIRENT_ALIGN x) = FUSE_DIRENT_ALIGN x := by
  rw [FUSE_DIRENT_ALIGN_eq (FUSE_DIRENT_ALIGN x), FUSE_DIRENT_ALIGN_eq x]
  have hy : (x + 7) % 2 ^ 64 < 2 ^ 64 := Nat.mod_lt _ (by norm_num)
  generalize (x + 7) % 2 ^ 64 = y at hy
  norm_num at hy ⊢
  omega

/-- C3: round-trip law for directory entries.  For every entry
`(ino, off, type, name)` written in the `struct fuse_dirent` layout (`ino`
at byte 0, `off` at 8, `namelen` at 16, `type` at 20, name bytes at 24,
padded to `FUSE_DIRENT_SIZE` bytes), in either byte order, reading the
record back yields the same `ino`, `off`, `namelen`, `type` and name, and
`FUSE_DIRENT_SIZE` recomputed from the record read equals the length of
the written record; and `FUSE_DIRENT_ALIGN` is idempotent. -/
theorem dirent_round_trip (bo : ByteOrder) (ino off type : Nat) (name : List Nat)
    (hi : ino < 2 ^ 64) (ho : off < 2 ^ 64) (ht : type < 2 ^ 32)
    (hn : name.length < 2 ^ 32) :
    layoutFrom 8 0 fuse_dirent =
      [("ino", 0), ("off", 8), ("namelen", 16), ("type", 20), ("name", 24)] ∧
    dirent_read bo (dirent_write bo ino off type name) =
      some { ino := ino, off := off, namelen := name.length, type := type, name := name } ∧
    (dirent_read bo (dirent_write bo ino off type name)).map FUSE_DIRENT_SIZE =
      some (dirent_write bo ino off type name).length ∧
    (∀ x, FUSE_DIRENT_ALIGN (FUSE_DIRENT_ALIGN x) = FUSE_DIRENT_ALIGN x) := by
  have h8 : Scalar.u64.width = 8 := rfl
  have h4 : Scalar.u32.width = 4 := rfl
  have hsz := FUSE_DIRENT_SIZE_eq
    { ino := ino, off := off, namelen := name.length, type := type, name := name } hn
  dsimp only at hsz
  have hlen : (dirent_write bo ino off type name).length =
      FUSE_DIRENT_SIZE
        { ino := ino, off := off, namelen := name.length, type := type, name := name } := by
    simp only [dirent_write, List.length_append, store_length, List.length_replicate, h8, h4,
      FUSE_NAME_OFFSET_eq]
    rw [hsz]
    omega
  have hread : dirent_read bo (dirent_write bo ino off type name) =
      some { ino := ino, off := off, namelen := name.length, type := type, name := name } := by
    have hge : ¬ (dirent_write bo ino off type name).length < FUSE_NAME_OFFSET := by
      rw [hlen, FUSE_NAME_OFFSET_eq, hsz]
      omega
    have o1 : direntOff "ino" = 0 := by decide
    have o2 : direntOff "off" = 8 := by decide
    have o3 : direntOff "namelen" = 16 := by decide
    have o4 : direntOff "type" = 20 := by decide
    unfold dirent_read
    rw [if_neg hge, o1, o2, o3, o4, FUSE_NAME_OFFSET_eq, h8, h4]
    have r1 : readAt (dirent_write bo ino off type name) 0 8 = store bo 8 ino := by
      have := readAt_segment [] (store bo 8 ino)
        (store bo 8 off ++ store bo 4 name.length ++ store bo 4 type ++ name ++
          List.replicate (FUSE_DIRENT_SIZE
            { ino := ino, off := off, namelen := name.length, type := type, name := name } -
            (FUSE_NAME_OFFSET + name.length)) 0) 0 8 rfl (store_length _ _ _).symm
      simpa [dirent_write, h8, h4, List.append_assoc] using this
    have r2 : readAt (dirent_write bo ino off type name) 8 8 = store bo 8 off := by
      have := readAt_segment (store bo 8 ino) (store bo 8 off)
        (store bo 4 name.length ++ store bo 4 type ++ name ++
          List.replicate (FUSE_DIRENT_SIZE
            { ino := ino, off := off, namelen := name.length, type := type, name := name } -
            (FUSE_NAME_OFFSET + name.length)) 0) 8 8 (store_length _ _ _).symm
        (store_length _ _ _).symm
      simpa [dirent_write, h8, h4, List.append_assoc] using this
    have r3 : readAt (dirent_write bo ino off type name) 16 4 = store bo 4 name.length := by
      have := readAt_segment (store bo 8 ino ++ store bo 8 off) (store bo 4 name.length)
        (store bo 4 type ++ name ++
          List.replicate (FUSE_DIRENT_SIZE
            { ino := ino, off := off, namelen := name.length, type := type, name := name } -
            (FUSE_NAME_OFFSET + name.length)) 0) 16 4 (by simp [store_length])
        (store_length _ _ _).symm
      simpa [dirent_write, h8, h4, List.append_assoc] using this
    have r4 : readAt (dirent_write bo ino off type name) 20 4 = store bo 4 type := by
      have := readAt_segment (store bo 8 ino ++ store bo 8 off ++ store bo 4 name.length)
        (store bo 4 type)
        (name ++
          List.replicate (FUSE_DIRENT_SIZE
            { ino := ino, off := off, namelen := name.length, type := type, name := name } -
            (FUSE_NAME_OFFSET + name.length)) 0) 20 4 (by simp [store_length])
        (store_length _ _ _).symm
      simpa [dirent_write, h8, h4, List.append_assoc] using this
    have r5 : readAt (dirent_write bo ino off type name) 24 name.length = name := by
      have := readAt_segment
        (store bo 8 ino ++ store bo 8 off ++ store bo 4 name.length ++ store bo 4 type) name
        (List.replicate (FUSE_DIRENT_SIZE
            { ino := ino, off := off, namelen := name.length, type := type, name := name } -
            (FUSE_NAME_OFFSET + name.length)) 0) 24 name.length (by simp [store_length]) rfl
      simpa [dirent_write, h8, h4, List.append_assoc] using this
    have l1 : load bo (store bo 8 ino) = ino := load_store bo 8 ino (by norm_num at hi ⊢; exact hi)
    have l2 : load bo (store bo 8 off) = off := load_store bo 8 off (by norm_num at ho ⊢; exact ho)
    have l3 : load bo (store bo 4 name.length) = name.length :=
      load_store bo 4 _ (by norm_num at hn ⊢; exact hn)
    have l4 : load bo (store bo 4 type) = type :=
      load_store bo 4 type (by norm_num at ht ⊢; exact ht)
    simp only [r1, r2, r3, r4, l1, l2, l3, l4, r5]
  refine ⟨by decide, hread, ?_, FUSE_DIRENT_ALIGN_idem⟩
  rw [hread, Option.map_some', hlen]

/-- Witness of C3: the entry `(ino 2, off 1, type 4, name "ab")`, little-endian. -/
theorem dirent_round_trip_witness :
    dirent_read .little (dirent_write .little 2 1 4 [97, 98]) =
      some { ino := 2, off := 1, namelen := 2, type := 4, name := [97, 98] } ∧
    (dirent_write .little 2 1 4 [97, 98]).length = 32 := by
  have h := dirent_round_trip .little 2 1 4 [97, 98] (by norm_num) (by norm_num) (by norm_num)
    (by norm_num)
  refine ⟨h.2.1, ?_⟩
  have h2 := h.2.2.1
  rw [h.2.1, Option.map_some'] at h2
  have h3 : FUSE_DIRENT_SIZE ⟨2, 1, [97, 98].length, 4, [97, 98]⟩ = 32 :=
    (FUSE_DIRENT_SIZE_eq _ (by norm_num)).trans (by decide)
  exact (Option.some.inj h2).symm.trans h3

/-! ## Sizes and offsets of the wire structures -/

/-- C4: every wire structure declared in `fuse_kernel.h` has a total size,
the sum of its declared field widths in declaration order, that is a
multiple of 8 bytes, and every scalar field (the members of an embedded
structure and the elements of an array taken one by one) sits at an offset
divisible by its own width; so the C layout inserts no padding and is the
same for a 32-bit caller (64-bit integers aligned to 4) and a 64-bit caller
(aligned to 8).  `fuse_in_header` is 40 bytes, `fuse_out_header` 16,
`fuse_attr` 88, `fuse_entry_out` 128, `fuse_init_out` 64. -/
theorem wire_structs_no_padding :
    (∀ p ∈ wireStructs,
      packedSize p.2 % 8 = 0 ∧
      leavesAligned 0 (Struct.leaves p.2) = true ∧
      ∀ a64 ∈ [4, 8],
        sizeof a64 p.2 = packedSize p.2 ∧ layoutFrom a64 0 p.2 = packedFrom 0 p.2) ∧
    wireStructs.length = 38 ∧
    packedSize fuse_in_header = 40 ∧
    packedSize fuse_out_header = 16 ∧
    packedSize fuse_attr = 88 ∧
    packedSize fuse_entry_out = 128 ∧
    packedSize fuse_init_out = 64 ∧
    packedSize fuse_dirent = 24 := by
  decide

/-- C5: each legacy compat size is a proper prefix of the current record
that ends exactly on a field boundary, for a 32-bit and a 64-bit caller
alike: 120 and 96 end just before `attr.blksize` of `fuse_entry_out` and
`fuse_attr_out`, 24 just before `lock_owner` of `fuse_write_in`, 48 just
before `st.frsize` of `fuse_statfs_out`, 8 just before `umask` of
`fuse_mknod_in`, 8 and 24 just before `max_readahead` and `time_gran` of
`fuse_init_out`, with 8 < 24 < `sizeof(fuse_init_out)`; and every compat
size is a multiple of 8. -/
theorem compat_sizes_are_prefixes :
    (∀ a64 ∈ [4, 8],
      offsetof2 a64 fuse_entry_out "attr" fuse_attr "blksize" =
        some FUSE_COMPAT_ENTRY_OUT_SIZE ∧
      FUSE_COMPAT_ENTRY_OUT_SIZE < sizeof a64 fuse_entry_out ∧
      offsetof2 a64 fuse_attr_out "attr" fuse_attr "blksize" =
        some FUSE_COMPAT_ATTR_OUT_SIZE ∧
      FUSE_COMPAT_ATTR_OUT_SIZE < sizeof a64 fuse_attr_out ∧
      offsetof a64 fuse_write_in "lock_owner" = some FUSE_COMPAT_WRITE_IN_SIZE ∧
      FUSE_COMPAT_WRITE_IN_SIZE < sizeof a64 fuse_write_in ∧
      offsetof2 a64 fuse_statfs_out "st" fuse_kstatfs "frsize" =
        some FUSE_COMPAT_STATFS_SIZE ∧
      FUSE_COMPAT_STATFS_SIZE < sizeof a64 fuse_statfs_out ∧
      offsetof a64 fuse_mknod_in "umask" = some FUSE_COMPAT_MKNOD_IN_SIZE ∧
      FUSE_COMPAT_MKNOD_IN_SIZE < sizeof a64 fuse_mknod_in ∧
      offsetof a64 fuse_init_out "max_readahead" = some FUSE_COMPAT_INIT_OUT_SIZE ∧
      offsetof a64 fuse_init_out "time_gran" = some FUSE_COMPAT_22_INIT_OUT_SIZE ∧
      FUSE_COMPAT_INIT_OUT_SIZE < FUSE_COMPAT_22_INIT_OUT_SIZE ∧
      FUSE_COMPAT_22_INIT_OUT_SIZE < sizeof a64 fuse_init_out) ∧
    compatSizes = [120, 96, 8, 24, 48, 8, 24] ∧
    (∀ c ∈ compatSizes, c % 8 = 0) := by
  decide

/-! ## The opcode numbering -/

/-- The list of enumerators holds every enumerator. -/
theorem fuse_opcode.mem_all (o : fuse_opcode) : o ∈ fuse_opcode.all := by
  cases o <;> decide

/-- Two enumerators with the same value are the same enumerator. -/
theorem fuse_opcode.toNat_injective : Function.Injective fuse_opcode.toNat := by
  intro a b h
  cases a <;> cases b <;> first | rfl | (exact absurd h (by decide))

/-- Decoding fails on every number no enumerator has. -/
theorem fuse_opcode.decode_eq_none (n : Nat) (h : ∀ o : fuse_opcode, o.toNat ≠ n) :
    fuse_opcode.decode n = none := by
  unfold fuse_opcode.decode
  rw [List.find?_eq_none]
  intro o _
  simpa using h o

/-- C6: the opcode enumeration is a fixed injective numbering.  The 46
enumerators have pairwise distinct values (`FUSE_LOOKUP = 1` ...
`FUSE_COPY_FILE_RANGE = 47`, `CUSE_INIT = 4096`), all 32-bit; decoding the
value of an enumerator returns that enumerator; decoding fails exactly on
the numbers that are no enumerator's value, in particular on 0, 7, 19 and
every number in 48..4095; the no-reply class is exactly `FUSE_FORGET = 2`
and `FUSE_BATCH_FORGET = 42`. -/
theorem fuse_opcode_numbering :
    fuse_opcode.all.length = 46 ∧
    (∀ o : fuse_opcode, o ∈ fuse_opcode.all) ∧
    (fuse_opcode.all.map fuse_opcode.toNat).Nodup ∧
    Function.Injective fuse_opcode.toNat ∧
    fuse_opcode.toNat .FUSE_LOOKUP = 1 ∧
    fuse_opcode.toNat .FUSE_COPY_FILE_RANGE = 47 ∧
    fuse_opcode.toNat .CUSE_INIT = 4096 ∧
    (∀ o : fuse_opcode, o.toNat < 2 ^ 32) ∧
    (∀ o : fuse_opcode, fuse_opcode.decode o.toNat = some o) ∧
    (∀ n : Nat, fuse_opcode.decode n = none ↔ ∀ o : fuse_opcode, o.toNat ≠ n) ∧
    fuse_opcode.decode 0 = none ∧
    fuse_opcode.decode 7 = none ∧
    fuse_opcode.decode 19 = none ∧
    (∀ n : Nat, 48 ≤ n → n ≤ 4095 → fuse_opcode.decode n = none) ∧
    (∀ o : fuse_opcode, o.noReply = true ↔ o.toNat = 2 ∨ o.toNat = 42) ∧
    fuse_opcode.toNat .FUSE_FORGET = 2 ∧
    fuse_opcode.toNat .FUSE_BATCH_FORGET = 42 := by
  have hdec : ∀ o : fuse_opcode, fuse_opcode.decode o.toNat = some o := by
    intro o; cases o <;> rfl
  refine ⟨rfl, fuse_opcode.mem_all, by decide, fuse_opcode.toNat_injective, rfl, rfl, rfl,
    ?_, hdec, ?_, by decide, by decide, by decide, ?_, ?_, rfl, rfl⟩
  · intro o; cases o <;> decide
  · intro n
    constructor
    · intro hn o ho
      rw [← ho, hdec o] at hn
      exact Option.noConfusion hn
    · exact fuse_opcode.decode_eq_none n
  · intro n h1 h2
    apply fuse_opcode.decode_eq_none
    intro o
    cases o <;> simp only [fuse_opcode.toNat] <;> omega
  · intro o; cases o <;> decide

/-- Witness of C6: 100 lies in 48..4095 and is no opcode. -/
theorem fuse_opcode_numbering_witness : fuse_opcode.decode 100 = none :=
  fuse_opcode_numbering.2.2.2.2.2.2.2.2.2.2.2.2.2.1 100 (by decide) (by decide)

/-! ## Version negotiation -/

/-- C7: version negotiation with the supported version 7.28.  For every
INIT request whose major is above 7 the reply major is 7 and the session
stays in `Negotiating`; for every INIT request whose major is 7 the reply
major is 7, the negotiated minor is `min peer_minor 28` and the session is
`Active` after this one INIT.  A request with major 7, minor 31 yields a
reply with major 7, minor 28 and `max_pages ≤ FUSE_MAX_MAX_PAGES = 256`. -/
theorem do_init_negotiates (e : Engine) (older : InitIn → InitResult) (arg : InitIn) :
    FUSE_KERNEL_VERSION = 7 ∧ FUSE_KERNEL_MINOR_VERSION = 28 ∧ FUSE_MAX_MAX_PAGES = 256 ∧
    (7 < arg.major →
      (do_init e older arg).reply.major = 7 ∧
      (do_init e older arg).state = .Negotiating ∧
      (do_init e older arg).proto_minor = none) ∧
    (arg.major = 7 →
      (do_init e older arg).reply.major = 7 ∧
      (do_init e older arg).proto_minor = some (min arg.minor 28) ∧
      (do_init e older arg).state = .Active) ∧
    (do_init e older ⟨7, 31, arg.max_readahead, arg.flags⟩).reply.major = 7 ∧
    (do_init e older ⟨7, 31, arg.max_readahead, arg.flags⟩).reply.minor = 28 ∧
    (do_init e older ⟨7, 31, arg.max_readahead, arg.flags⟩).proto_minor = some 28 ∧
    (do_init e older ⟨7, 31, arg.max_readahead, arg.flags⟩).reply.max_pages ≤ 256 := by
  refine ⟨rfl, rfl, rfl, ?_, ?_, ?_, ?_, ?_, ?_⟩
  · intro h
    have hgt : arg.major > FUSE_KERNEL_VERSION := h
    unfold do_init
    rw [if_pos hgt]
    exact ⟨rfl, rfl, rfl⟩
  · intro h
    simp [do_init, h, FUSE_KERNEL_VERSION, FUSE_KERNEL_MINOR_VERSION]
  · simp [do_init, FUSE_KERNEL_VERSION]
  · simp [do_init, FUSE_KERNEL_VERSION, FUSE_KERNEL_MINOR_VERSION]
  · simp [do_init, FUSE_KERNEL_VERSION, FUSE_KERNEL_MINOR_VERSION]
  · simp only [do_init, FUSE_KERNEL_VERSION, FUSE_MAX_MAX_PAGES]
    simp

/-- Witness of C7: a peer at 8.0 is kept in `Negotiating`, a peer at 7.12
negotiates minor 12, a peer at 7.31 negotiates minor 28 and gets 256 pages. -/
theorem do_init_negotiates_witness :
    (do_init sampleEngine sampleOlder ⟨8, 0, 0, 0⟩).state = .Negotiating ∧
    (do_init sampleEngine sampleOlder ⟨7, 12, 0, 0⟩).proto_minor = some 12 ∧
    (do_init sampleEngine sampleOlder ⟨7, 12, 0, 0⟩).state = .Active ∧
    (do_init sampleEngine sampleOlder ⟨7, 31, 65536, 0x400021⟩).reply.minor = 28 ∧
    (do_init sampleEngine sampleOlder ⟨7, 31, 65536, 0x400021⟩).reply.max_pages = 256 := by
  have h8 := do_init_negotiates sampleEngine sampleOlder ⟨8, 0, 0, 0⟩
  have h12 := do_init_negotiates sampleEngine sampleOlder ⟨7, 12, 0, 0⟩
  have h31 := do_init_negotiates sampleEngine sampleOlder ⟨7, 31, 65536, 0x400021⟩
  exact ⟨(h8.2.2.2.1 (by decide)).2.1, (h12.2.2.2.2.1 rfl).2.1, (h12.2.2.2.2.1 rfl).2.2,
    h31.2.2.2.2.2.2.1, by decide⟩

/-! ## Dropping and restoring privileges -/

/-- The argument `-1` keeps the old id. -/
theorem setId_unchanged (old : Nat) : setId ID_UNCHANGED old = old := if_pos rfl

/-- The argument 0 sets the id to 0. -/
theorem setId_zero (old : Nat) : setId 0 old = 0 := if_neg (by decide)

/-- A `setresuid` call the kernel carries out. -/
theorem setresuid_ok (k : Kernel) (p : Proc) (r e s : Nat) (h : k p .uid r e s = true) :
    setresuid k p r e s =
      (0, { creds := { p.creds with ruid := setId r p.creds.ruid
                                    euid := setId e p.creds.euid
                                    suid := setId s p.creds.suid }
            log := p.log ++ [.setresuid r e s 0] }) := by
  simp [setresuid, h]

/-- A `setresuid` call the kernel refuses. -/
theorem setresuid_fail (k : Kernel) (p : Proc) (r e s : Nat) (h : k p .uid r e s = false) :
    setresuid k p r e s = (-1, { p with log := p.log ++ [.setresuid r e s (-1)] }) := by
  simp [setresuid, h]

/-- A `setresgid` call the kernel carries out. -/
theorem setresgid_ok (k : Kernel) (p : Proc) (r e s : Nat) (h : k p .gid r e s = true) :
    setresgid k p r e s =
      (0, { creds := { p.creds with rgid := setId r p.creds.rgid
                                    egid := setId e p.creds.egid
                                    sgid := setId s p.creds.sgid }
            log := p.log ++ [.setresgid r e s 0] }) := by
  simp [setresgid, h]

/-- A `setresgid` call the kernel refuses. -/
theorem setresgid_fail (k : Kernel) (p : Proc) (r e s : Nat) (h : k p .gid r e s = false) :
    setresgid k p r e s = (-1, { p with log := p.log ++ [.setresgid r e s (-1)] }) := by
  simp [setresgid, h]

/-- The four ways through the user half of `drop_privs`. -/
theorem drop_privs_user_cases (k : Kernel) (p : Proc) :
    (p.creds.euid ≠ 0 ∧ drop_privs_user k p = (0, p)) ∨
    (p.creds.euid = 0 ∧
      drop_privs_user k p =
        (-1, { p with log := p.log ++ [.setresuid ID_UNCHANGED p.creds.ruid 0 (-1)] })) ∨
    (p.creds.euid = 0 ∧ setId p.creds.ruid 0 ≠ p.creds.ruid ∧
      drop_privs_user k p =
        (-1, { creds := { p.creds with euid := setId p.creds.ruid 0, suid := 0 }
               log := p.log ++ [.setresuid ID_UNCHANGED p.creds.ruid 0 0] })) ∨
    (p.creds.euid = 0 ∧ setId p.creds.ruid 0 = p.creds.ruid ∧
      drop_privs_user k p =
        (0, { creds := { p.creds with euid := p.creds.ruid, suid := 0 }
              log := p.log ++ [.setresuid ID_UNCHANGED p.creds.ruid 0 0] })) := by
  by_cases hu : p.creds.euid = 0
  · right
    cases hk : k p .uid ID_UNCHANGED p.creds.ruid 0
    · left
      refine ⟨hu, ?_⟩
      simp [drop_privs_user, geteuid, getuid, hu, setresuid_fail k p _ _ _ hk]
    · right
      by_cases hr : setId p.creds.ruid 0 = p.creds.ruid
      · right
        refine ⟨hu, hr, ?_⟩
        simp [drop_privs_user, geteuid, getuid, hu, setresuid_ok k p _ _ _ hk, setId_unchanged,
          setId_zero, hr]
      · left
        refine ⟨hu, hr, ?_⟩
        simp [drop_privs_user, geteuid, getuid, hu, setresuid_ok k p _ _ _ hk, setId_unchanged,
          setId_zero, hr]
  · left
    exact ⟨hu, by simp [drop_privs_user, geteuid, hu]⟩

/-- The four ways through the group half of `drop_privs`. -/
theorem drop_privs_cases (k : Kernel) (p : Proc) :
    (p.creds.egid ≠ 0 ∧ drop_privs k p = drop_privs_user k p) ∨
    (p.creds.egid = 0 ∧
      drop_privs k p =
        (-1, { p with log := p.log ++ [.setresgid ID_UNCHANGED p.creds.rgid 0 (-1)] })) ∨
    (p.creds.egid = 0 ∧ setId p.creds.rgid 0 ≠ p.creds.rgid ∧
      drop_privs k p =
        (-1, { creds := { p.creds with egid := setId p.creds.rgid 0, sgid := 0 }
               log := p.log ++ [.setresgid ID_UNCHANGED p.creds.rgid 0 0] })) ∨
    (p.creds.egid = 0 ∧ setId p.creds.rgid 0 = p.creds.rgid ∧
      drop_privs k p =
        drop_privs_user k
          { creds := { p.creds with egid := p.creds.rgid, sgid := 0 }
            log := p.log ++ [.setresgid ID_UNCHANGED p.creds.rgid 0 0] }) := by
  by_cases hg : p.creds.egid = 0
  · right
    cases hk : k p .gid ID_UNCHANGED p.creds.rgid 0
    · left
      refine ⟨hg, ?_⟩
      simp [drop_privs, getegid, getgid, hg, setresgid_fail k p _ _ _ hk]
    · right
      by_cases hr : setId p.creds.rgid 0 = p.creds.rgid
      · right
        refine ⟨hg, hr, ?_⟩
        simp [drop_privs, getegid, getgid, hg, setresgid_ok k p _ _ _ hk, setId_unchanged,
          setId_zero, hr]
      · left
        refine ⟨hg, hr, ?_⟩
        simp [drop_privs, getegid, getgid, hg, setresgid_ok k p _ _ _ hk, setId_unchanged,
          setId_zero, hr]
  · left
    exact ⟨hg, by simp [drop_privs, getegid, hg]⟩

/-- The credentials after a `drop_privs` that returns 0. -/
theorem drop_privs_ok (k : Kernel) (p : Proc) (h : (drop_privs k p).1 = 0) :
    (drop_privs k p).2.creds =
      { ruid := p.creds.ruid
        euid := if p.creds.euid = 0 then p.creds.ruid else p.creds.euid
        suid := if p.creds.euid = 0 then 0 else p.creds.suid
        rgid := p.creds.rgid
        egid := if p.creds.egid = 0 then p.creds.rgid else p.creds.egid
        sgid := if p.creds.egid = 0 then 0 else p.creds.sgid } := by
  rcases drop_privs_cases k p with ⟨hg, e⟩ | ⟨hg, e⟩ | ⟨hg, hr, e⟩ | ⟨hg, hr, e⟩
  · rw [e] at h ⊢
    rcases drop_privs_user_cases k p with ⟨hu, e'⟩ | ⟨hu, e'⟩ | ⟨hu, hr', e'⟩ | ⟨hu, hr', e'⟩
    · rw [e']; simp [hg, hu]
    · rw [e'] at h; simp at h
    · rw [e'] at h; simp at h
    · rw [e']; simp [hg, hu]
  · rw [e] at h; simp at h
  · rw [e] at h; simp at h
  · rw [e] at h ⊢
    rcases drop_privs_user_cases k
      { creds := { p.creds with egid := p.creds.rgid, sgid := 0 }
        log := p.log ++ [.setresgid ID_UNCHANGED p.creds.rgid 0 0] }
      with ⟨hu, e'⟩ | ⟨hu, e'⟩ | ⟨hu, hr', e'⟩ | ⟨hu, hr', e'⟩
    · rw [e']; simp only [] at hu; simp [hg, hu]
    · rw [e'] at h; simp at h
    · rw [e'] at h; simp at h
    · rw [e']; simp only [] at hu; simp [hg, hu]

/-- C8: `drop_privs` (non-Solaris build) is permissive when there is
nothing to drop: for every credential state whose effective gid and
effective uid are both non-zero it returns 0, makes no `setresgid` or
`setresuid` call and leaves the real, effective and saved uid and gid
unchanged, whatever the kernel would permit. -/
theorem drop_privs_nothing_to_drop (k : Kernel) (p : Proc)
    (hg : p.creds.egid ≠ 0) (hu : p.creds.euid ≠ 0) :
    (drop_privs k p).1 = 0 ∧ (drop_privs k p).2.log = p.log ∧
    (drop_privs k p).2.creds = p.creds := by
  simp [drop_privs, drop_privs_user, getegid, geteuid, hg, hu]

/-- Witness of C8: an ordinary user, uid and gid 1000 throughout. -/
theorem drop_privs_nothing_to_drop_witness :
    (drop_privs linuxKernel ⟨⟨1000, 1000, 1000, 1000, 1000, 1000⟩, []⟩).1 = 0 ∧
    (drop_privs linuxKernel ⟨⟨1000, 1000, 1000, 1000, 1000, 1000⟩, []⟩).2.log = [] ∧
    (drop_privs linuxKernel ⟨⟨1000, 1000, 1000, 1000, 1000, 1000⟩, []⟩).2.creds =
      ⟨1000, 1000, 1000, 1000, 1000, 1000⟩ :=
  drop_privs_nothing_to_drop linuxKernel ⟨⟨1000, 1000, 1000, 1000, 1000, 1000⟩, []⟩
    (by decide) (by decide)

/-- C9: postcondition of a successful drop.  If `drop_privs` returns 0 and
the effective uid was 0 before, then afterwards the effective uid equals
the real uid, the saved uid is 0 and the real uid is unchanged; likewise
for the gids.  `drop_privs` returns 0 or -1, and -1 exactly when a
`setresgid` or `setresuid` call it makes fails or an effective id it set
out to drop differs from the real id when read back. -/
theorem drop_privs_postcondition (k : Kernel) (p : Proc) :
    ((drop_privs k p).1 = 0 → p.creds.euid = 0 →
      (drop_privs k p).2.creds.euid = (drop_privs k p).2.creds.ruid ∧
      (drop_privs k p).2.creds.suid = 0 ∧
      (drop_privs k p).2.creds.ruid = p.creds.ruid) ∧
    ((drop_privs k p).1 = 0 → p.creds.egid = 0 →
      (drop_privs k p).2.creds.egid = (drop_privs k p).2.creds.rgid ∧
      (drop_privs k p).2.creds.sgid = 0 ∧
      (drop_privs k p).2.creds.rgid = p.creds.rgid) ∧
    ((drop_privs k p).1 = 0 ∨ (drop_privs k p).1 = -1) ∧
    ((drop_privs k p).1 = -1 ↔
      (∃ c ∈ (drop_privs k p).2.log.drop p.log.length, c.ret < 0) ∨
      (p.creds.egid = 0 ∧ (drop_privs k p).2.creds.egid ≠ (drop_privs k p).2.creds.rgid) ∨
      (p.creds.euid = 0 ∧ (drop_privs k p).2.creds.euid ≠ (drop_privs k p).2.creds.ruid)) := by
  refine ⟨?_, ?_, ?_, ?_⟩
  · intro h hu
    rw [drop_privs_ok k p h]
    simp [hu]
  · intro h hg
    rw [drop_privs_ok k p h]
    simp [hg]
  · rcases drop_privs_cases k p with ⟨hg, e⟩ | ⟨hg, e⟩ | ⟨hg, hr, e⟩ | ⟨hg, hr, e⟩
    · rw [e]
      rcases drop_privs_user_cases k p with ⟨hu, e'⟩ | ⟨hu, e'⟩ | ⟨hu, hr', e'⟩ | ⟨hu, hr', e'⟩ <;>
        rw [e'] <;> simp
    · rw [e]; simp
    · rw [e]; simp
    · rw [e]
      rcases drop_privs_user_cases k
        { creds := { p.creds with egid := p.creds.rgid, sgid := 0 }
          log := p.log ++ [.setresgid ID_UNCHANGED p.creds.rgid 0 0] }
        with ⟨hu, e'⟩ | ⟨hu, e'⟩ | ⟨hu, hr', e'⟩ | ⟨hu, hr', e'⟩ <;>
        rw [e'] <;> simp
  · rcases drop_privs_cases k p with ⟨hg, e⟩ | ⟨hg, e⟩ | ⟨hg, hr, e⟩ | ⟨hg, hr, e⟩
    · rw [e]
      rcases drop_privs_user_cases k p with ⟨hu, e'⟩ | ⟨hu, e'⟩ | ⟨hu, hr', e'⟩ | ⟨hu, hr', e'⟩
      · rw [e']; simp [hg, hu]
      · rw [e']; simp [Call.ret]
      · rw [e']; simp [hu, hr']
      · rw [e']; simp [hg, Call.ret]
    · rw [e]; simp [Call.ret]
    · rw [e]; simp [hg, hr]
    · rw [e]
      rcases drop_privs_user_cases k
        { creds := { p.creds with egid := p.creds.rgid, sgid := 0 }
          log := p.log ++ [.setresgid ID_UNCHANGED p.creds.rgid 0 0] }
        with ⟨hu, e'⟩ | ⟨hu, e'⟩ | ⟨hu, hr', e'⟩ | ⟨hu, hr', e'⟩
      · rw [e']; simp only [] at hu; simp [hu, Call.ret]
      · rw [e']; simp [Call.ret]
      · rw [e']; simp only [] at hu hr'; simp [hu, hr']
      · rw [e']; simp [Call.ret]

/-- Witness of C9: a set-uid-root, set-gid-root program run by user 1000
ends with effective ids 1000 and saved ids 0. -/
theorem drop_privs_postcondition_witness :
    (drop_privs linuxKernel ⟨⟨1000, 0, 0, 1000, 0, 0⟩, []⟩).1 = 0 ∧
    (drop_privs linuxKernel ⟨⟨1000, 0, 0, 1000, 0, 0⟩, []⟩).2.creds.euid = 1000 ∧
    (drop_privs linuxKernel ⟨⟨1000, 0, 0, 1000, 0, 0⟩, []⟩).2.creds.suid = 0 ∧
    (drop_privs linuxKernel ⟨⟨1000, 0, 0, 1000, 0, 0⟩, []⟩).2.creds.egid = 1000 ∧
    (drop_privs linuxKernel ⟨⟨1000, 0, 0, 1000, 0, 0⟩, []⟩).2.creds.sgid = 0 := by
  have h := drop_privs_postcondition linuxKernel ⟨⟨1000, 0, 0, 1000, 0, 0⟩, []⟩
  have h0 : (drop_privs linuxKernel ⟨⟨1000, 0, 0, 1000, 0, 0⟩, []⟩).1 = 0 := by decide
  have hu := h.1 h0 rfl
  have hg := h.2.1 h0 rfl
  exact ⟨h0, hu.1.trans hu.2.2, hu.2.1, hg.1.trans hg.2.2, hg.2.1⟩

/-- The four ways through the group half of `restore_privs`. -/
theorem restore_privs_group_cases (k : Kernel) (p : Proc) :
    (p.creds.egid = 0 ∧ restore_privs_group k p = (0, p)) ∨
    (p.creds.egid ≠ 0 ∧
      restore_privs_group k p =
        (-1, { p with
          log := p.log ++ [.setresgid ID_UNCHANGED p.creds.sgid ID_UNCHANGED (-1)] })) ∨
    (p.creds.egid ≠ 0 ∧ setId p.creds.sgid p.creds.egid ≠ p.creds.sgid ∧
      restore_privs_group k p =
        (-1, { creds := { p.creds with egid := setId p.creds.sgid p.creds.egid }
               log := p.log ++ [.setresgid ID_UNCHANGED p.creds.sgid ID_UNCHANGED 0] })) ∨
    (p.creds.egid ≠ 0 ∧ setId p.creds.sgid p.creds.egid = p.creds.sgid ∧
      restore_privs_group k p =
        (0, { creds := { p.creds with egid := p.creds.sgid }
              log := p.log ++ [.setresgid ID_UNCHANGED p.creds.sgid ID_UNCHANGED 0] })) := by
  by_cases hg : p.creds.egid = 0
  · left
    exact ⟨hg, by simp [restore_privs_group, getegid, hg]⟩
  · right
    cases hk : k p .gid ID_UNCHANGED p.creds.sgid ID_UNCHANGED
    · left
      refine ⟨hg, ?_⟩
      simp [restore_privs_group, getegid, getresgid, hg, setresgid_fail k p _ _ _ hk]
    · right
      by_cases hr : setId p.creds.sgid p.creds.egid = p.creds.sgid
      · right
        refine ⟨hg, hr, ?_⟩
        simp [restore_privs_group, getegid, getresgid, hg, setresgid_ok k p _ _ _ hk,
          setId_unchanged, hr]
      · left
        refine ⟨hg, hr, ?_⟩
        simp [restore_privs_group, getegid, getresgid, hg, setresgid_ok k p _ _ _ hk,
          setId_unchanged, hr]

/-- The four ways through the user half of `restore_privs`. -/
theorem restore_privs_cases (k : Kernel) (p : Proc) :
    (p.creds.euid = 0 ∧ restore_privs k p = restore_privs_group k p) ∨
    (p.creds.euid ≠ 0 ∧
      restore_privs k p =
        (-1, { p with
          log := p.log ++ [.setresuid ID_UNCHANGED p.creds.suid ID_UNCHANGED (-1)] })) ∨
    (p.creds.euid ≠ 0 ∧ setId p.creds.suid p.creds.euid ≠ p.creds.suid ∧
      restore_privs k p =
        (-1, { creds := { p.creds with euid := setId p.creds.suid p.creds.euid }
               log := p.log ++ [.setresuid ID_UNCHANGED p.creds.suid ID_UNCHANGED 0] })) ∨
    (p.creds.euid ≠ 0 ∧ setId p.creds.suid p.creds.euid = p.creds.suid ∧
      restore_privs k p =
        restore_privs_group k
          { creds := { p.creds with euid := p.creds.suid }
            log := p.log ++ [.setresuid ID_UNCHANGED p.creds.suid ID_UNCHANGED 0] }) := by
  by_cases hu : p.creds.euid = 0
  · left
    exact ⟨hu, by simp [restore_privs, geteuid, hu]⟩
  · right
    cases hk : k p .uid ID_UNCHANGED p.creds.suid ID_UNCHANGED
    · left
      refine ⟨hu, ?_⟩
      simp [restore_privs, geteuid, getresuid, hu, setresuid_fail k p _ _ _ hk]
    · right
      by_cases hr : setId p.creds.suid p.creds.euid = p.creds.suid
      · right
        refine ⟨hu, hr, ?_⟩
        simp [restore_privs, geteuid, getresuid, hu, setresuid_ok k p _ _ _ hk,
          setId_unchanged, hr]
      · left
        refine ⟨hu, hr, ?_⟩
        simp [restore_privs, geteuid, getresuid, hu, setresuid_ok k p _ _ _ hk,
          setId_unchanged, hr]

/-- The effective ids after a `restore_privs` that returns 0: an effective
id that was 0 stays 0, another one becomes the saved id. -/
theorem restore_privs_ok (k : Kernel) (p : Proc) (h : (restore_privs k p).1 = 0) :
    (restore_privs k p).2.creds.euid = (if p.creds.euid = 0 then 0 else p.creds.suid) ∧
    (restore_privs k p).2.creds.egid = (if p.creds.egid = 0 then 0 else p.creds.sgid) := by
  rcases restore_privs_cases k p with ⟨hu, e⟩ | ⟨hu, e⟩ | ⟨hu, hr, e⟩ | ⟨hu, hr, e⟩
  · rw [e] at h ⊢
    rcases restore_privs_group_cases k p with ⟨hg, e'⟩ | ⟨hg, e'⟩ | ⟨hg, hr', e'⟩ | ⟨hg, hr', e'⟩
    · rw [e']; simp [hg, hu]
    · rw [e'] at h; simp at h
    · rw [e'] at h; simp at h
    · rw [e']; simp [hg, hu]
  · rw [e] at h; simp at h
  · rw [e] at h; simp at h
  · rw [e] at h ⊢
    rcases restore_privs_group_cases k
      { creds := { p.creds with euid := p.creds.suid }
        log := p.log ++ [.setresuid ID_UNCHANGED p.creds.suid ID_UNCHANGED 0] }
      with ⟨hg, e'⟩ | ⟨hg, e'⟩ | ⟨hg, hr', e'⟩ | ⟨hg, hr', e'⟩
    · rw [e']; simp only [] at hg; simp [hg, hu]
    · rw [e'] at h; simp at h
    · rw [e'] at h; simp at h
    · rw [e']; simp only [] at hg; simp [hg, hu]

/-- After a drop and a restore that both return 0, an effective id is back
at its initial value exactly when it was 0 or equal to the saved id. -/
theorem drop_restore_effective_ids (k : Kernel) (p : Proc)
    (hd : (drop_privs k p).1 = 0)
    (hr : (restore_privs k (drop_privs k p).2).1 = 0) :
    ((restore_privs k (drop_privs k p).2).2.creds.euid = p.creds.euid ↔
      (p.creds.euid = 0 ∨ p.creds.euid = p.creds.suid)) ∧
    ((restore_privs k (drop_privs k p).2).2.creds.egid = p.creds.egid ↔
      (p.creds.egid = 0 ∨ p.creds.egid = p.creds.sgid)) := by
  have hr' := restore_privs_ok k _ hr
  rw [drop_privs_ok k p hd] at hr'
  rw [hr'.1, hr'.2]
  constructor
  · by_cases h0 : p.creds.euid = 0
    · simp only [h0, if_true, true_or, iff_true]
      split <;> rfl
    · simp only [if_neg h0]
      exact ⟨fun h => Or.inr h.symm, fun h => (h.resolve_left h0).symm⟩
  · by_cases h0 : p.creds.egid = 0
    · simp only [h0, if_true, true_or, iff_true]
      split <;> rfl
    · simp only [if_neg h0]
      exact ⟨fun h => Or.inr h.symm, fun h => (h.resolve_left h0).symm⟩

/-- The unamended C10 fails: a process with real and effective uid 1000 and
saved uid 0 (a set-uid program that has already dropped) passes
`drop_privs` untouched, and `restore_privs` then raises its effective uid
to 0; both return 0. -/
theorem drop_restore_not_round_trip :
    ¬ ∀ (k : Kernel) (p : Proc),
      (drop_privs k p).1 = 0 → (restore_privs k (drop_privs k p).2).1 = 0 →
      (restore_privs k (drop_privs k p).2).2.creds.euid = p.creds.euid ∧
      (restore_privs k (drop_privs k p).2).2.creds.egid = p.creds.egid := by
  intro h
  have h1 := h linuxKernel ⟨⟨1000, 1000, 0, 1000, 1000, 1000⟩, []⟩ (by decide) (by decide)
  exact absurd h1.1 (by decide)

/-- C10, amended: drop followed by restore is a round trip on the effective
ids for every initial credential state whose effective uid is 0 or equal to
the saved uid and whose effective gid is 0 or equal to the saved gid: if
`drop_privs` returns 0 and `restore_privs` called next returns 0, the
effective uid and gid afterwards are those before `drop_privs`. -/
theorem drop_restore_round_trip (k : Kernel) (p : Proc)
    (hu : p.creds.euid = 0 ∨ p.creds.euid = p.creds.suid)
    (hg : p.creds.egid = 0 ∨ p.creds.egid = p.creds.sgid)
    (hd : (drop_privs k p).1 = 0)
    (hr : (restore_privs k (drop_privs k p).2).1 = 0) :
    (restore_privs k (drop_privs k p).2).2.creds.euid = p.creds.euid ∧
    (restore_privs k (drop_privs k p).2).2.creds.egid = p.creds.egid := by
  have hr' := restore_privs_ok k _ hr
  rw [drop_privs_ok k p hd] at hr'
  rw [hr'.1, hr'.2]
  constructor
  · by_cases h0 : p.creds.euid = 0
    · simp only [h0, if_true]
      split <;> rfl
    · have hs : p.creds.euid = p.creds.suid := hu.resolve_left h0
      simp only [if_neg h0]
      exact hs.symm
  · by_cases h0 : p.creds.egid = 0
    · simp only [h0, if_true]
      split <;> rfl
    · have hs : p.creds.egid = p.creds.sgid := hg.resolve_left h0
      simp only [if_neg h0]
      exact hs.symm

/-- Witness of the amended C10: a set-uid-root, set-gid-root program run by
user 1000 drops to 1000 and comes back to effective ids 0. -/
theorem drop_restore_round_trip_witness :
    (restore_privs linuxKernel
      (drop_privs linuxKernel ⟨⟨1000, 0, 0, 1000, 0, 0⟩, []⟩).2).2.creds.euid = 0 ∧
    (restore_privs linuxKernel
      (drop_privs linuxKernel ⟨⟨1000, 0, 0, 1000, 0, 0⟩, []⟩).2).2.creds.egid = 0 :=
  drop_restore_round_trip linuxKernel ⟨⟨1000, 0, 0, 1000, 0, 0⟩, []⟩ (Or.inl rfl) (Or.inl rfl)
    (by decide) (by decide)

end FuseLite
